import Mathlib

/-
Shallow embedding of CompositionImageDemo (src/CompositionImageDemo/main.cpp).

The program decodes a JPEG, uploads the decoded pixels into a D3D11 texture
(CreateTextureFromImageAsync), copies that texture into a compositor drawing
surface at an atlas offset (CopyTexutreIntoCompositionSurface), and recovers
from GPU device removal by rebuilding the device in a retry loop
(RegisterForDeviceLost).  Platform services (file system, JPEG decoder, the
compositor, D3D device creation) are external; the embedding models the
decoded frame, the device handle and the atlas offset as inputs, and the
repository code as functions over them.
-/

/-- Pixel formats reported by the WIC bitmap decoder
(winrt::BitmapPixelFormat); the demo only supports Bgra8. -/
inductive BitmapPixelFormat
  | Bgra8
  | Rgba8
  | Rgba16
  | Gray8
  deriving DecidableEq, Repr

/-- DXGI texture formats; the demo only ever requests B8G8R8A8_UNORM
(main.cpp line 154). -/
inductive DXGIFormat
  | B8G8R8A8_UNORM
  | R8G8B8A8_UNORM
  deriving DecidableEq, Repr

/-- Composition surface pixel formats (winrt::DirectXPixelFormat). -/
inductive DirectXPixelFormat
  | B8G8R8A8UIntNormalized
  | R8G8B8A8UIntNormalized
  deriving DecidableEq, Repr

/-- Composition surface alpha modes (winrt::DirectXAlphaMode). -/
inductive DirectXAlphaMode
  | Premultiplied
  | Straight
  | Ignore
  deriving DecidableEq, Repr

/-- A decoded bitmap frame: what `decoder.GetFrameAsync(0)` followed by
`GetPixelDataAsync` yields in main.cpp lines 140-146.  Pixel bytes are raw,
row-major, 4 bytes per pixel when the format is Bgra8. -/
structure BitmapFrame where
  pixelWidth : Nat
  pixelHeight : Nat
  bitmapPixelFormat : BitmapPixelFormat
  pixelData : List Nat
  deriving DecidableEq, Repr

/-- A D3D11 device handle; distinct calls to util::CreateD3DDevice yield
handles with distinct ids. -/
structure D3DDevice where
  id : Nat
  deriving DecidableEq, Repr

/-- DXGI_SAMPLE_DESC; the demo sets desc.SampleDesc.Count = 1
(main.cpp line 155). -/
structure DXGISampleDesc where
  Count : Nat
  deriving DecidableEq, Repr

/-- D3D11_TEXTURE2D_DESC, restricted to the fields the demo assigns in
main.cpp lines 149-155; the remaining fields of the zero-initialized
struct are never read by the claims. -/
structure Texture2DDesc where
  Width : Nat
  Height : Nat
  MipLevels : Nat
  ArraySize : Nat
  Format : DXGIFormat
  SampleDesc : DXGISampleDesc
  deriving DecidableEq, Repr

/-- D3D11_SUBRESOURCE_DATA as filled in main.cpp lines 157-161: the system
memory pointer is modelled as the byte list itself. -/
structure SubresourceData where
  pSysMem : List Nat
  SysMemPitch : Nat
  deriving DecidableEq, Repr

/-- A created ID3D11Texture2D: its descriptor, its initial contents, and the
device that created it. -/
structure Texture2D where
  deviceId : Nat
  desc : Texture2DDesc
  data : SubresourceData
  deriving DecidableEq, Repr

/-- Errors the embedded code can raise (check_hresult throws / WINRT_ASSERT
fires in the source). -/
inductive LoadError
  | assertUnsupportedPixelFormat
  | resizeFailed
  | beginDrawFailed
  | copyFailed
  deriving DecidableEq, Repr

/-- CreateTextureFromImageAsync, main.cpp lines 123-166, after the external
file-open and decode steps have produced `frame`.  The function asserts the
decoded format is Bgra8 (line 143), then fills a texture descriptor with the
frame dimensions, one mip level, one array slice, sample count 1 and the
BGRA8 DXGI format (lines 149-155), and initializes the texture from the
frame bytes with row pitch width * 4 (lines 157-161). -/
def CreateTextureFromImage (device : D3DDevice) (frame : BitmapFrame) :
    Except LoadError Texture2D :=
  let width := frame.pixelWidth
  let height := frame.pixelHeight
  if frame.bitmapPixelFormat = BitmapPixelFormat.Bgra8 then
    let bytes := frame.pixelData
    Except.ok
      { deviceId := device.id
        desc :=
          { Width := width
            Height := height
            MipLevels := 1
            ArraySize := 1
            Format := DXGIFormat.B8G8R8A8_UNORM
            SampleDesc := { Count := 1 } }
        data := { pSysMem := bytes, SysMemPitch := width * 4 } }
  else
    Except.error LoadError.assertUnsupportedPixelFormat

/-- The 4 bytes of the texel at column x, row y of a texture, read from its
initial data through the row pitch. -/
def texelBytes (t : Texture2D) (x y : Nat) : List Nat :=
  (t.data.pSysMem.drop (y * t.data.SysMemPitch + 4 * x)).take 4

/-- State of a CompositionDrawingSurface.  The surface is backed by an atlas
(a content function over atlas coordinates); BeginDraw hands out the current
atlas offset, chosen by the compositor and modelled as part of the state.
`drawing` is true between BeginDraw and EndDraw. -/
structure SurfaceState where
  sizeWidth : Nat
  sizeHeight : Nat
  pixelFormat : DirectXPixelFormat
  alphaMode : DirectXAlphaMode
  atlas : Nat → Nat → List Nat
  offsetX : Nat
  offsetY : Nat
  drawing : Bool

/-- CompositionGraphicsDevice::CreateDrawingSurface as called from WinMain:
a fresh surface of the given size, format and alpha mode over a given atlas
placement. -/
def CreateDrawingSurface (w h : Nat) (fmt : DirectXPixelFormat)
    (alpha : DirectXAlphaMode) (atlas : Nat → Nat → List Nat)
    (ox oy : Nat) : SurfaceState :=
  { sizeWidth := w
    sizeHeight := h
    pixelFormat := fmt
    alphaMode := alpha
    atlas := atlas
    offsetX := ox
    offsetY := oy
    drawing := false }

/-- The surface created in WinMain, main.cpp lines 70-73: size {1,1},
B8G8R8A8UIntNormalized, premultiplied alpha. -/
def winMainInitialSurface (atlas : Nat → Nat → List Nat) (ox oy : Nat) :
    SurfaceState :=
  CreateDrawingSurface 1 1 DirectXPixelFormat.B8G8R8A8UIntNormalized
    DirectXAlphaMode.Premultiplied atlas ox oy

/-- Observable actions of CopyTexutreIntoCompositionSurface on the surface
interop interface and the device context, in call order. -/
inductive SurfaceAction
  | resize (w h : Nat)
  | beginDraw (ox oy : Nat)
  | copySubresource
  | endDraw
  deriving DecidableEq, Repr

/-- Which of the three fallible steps of CopyTexutreIntoCompositionSurface
fail in a given run (check_hresult on Resize and BeginDraw; the copy itself,
which claim C3 quantifies over). -/
structure CopyFaults where
  resizeFails : Bool
  beginDrawFails : Bool
  copyFails : Bool
  deriving DecidableEq, Repr

/-- The run in which every step succeeds. -/
def noFaults : CopyFaults :=
  { resizeFails := false, beginDrawFails := false, copyFails := false }

/-- ID3D11DeviceContext::CopySubresourceRegion with a null source box
(main.cpp lines 192-200): the whole source texture is written into the
destination content at the destination offset; everything outside the
written rectangle is untouched. -/
def CopySubresourceRegion (dst : Nat → Nat → List Nat) (dstX dstY : Nat)
    (src : Texture2D) : Nat → Nat → List Nat :=
  fun x y =>
    if dstX ≤ x ∧ x < dstX + src.desc.Width ∧
        dstY ≤ y ∧ y < dstY + src.desc.Height then
      texelBytes src (x - dstX) (y - dstY)
    else
      dst x y

/-- Result of one call to CopyTexutreIntoCompositionSurface: the error that
propagated (if any), the surface state afterwards, and the trace of surface
actions performed. -/
structure CopyResult where
  error : Option LoadError
  surface : SurfaceState
  actions : List SurfaceAction

/-- CopyTexutreIntoCompositionSurface, main.cpp lines 168-201: read the
source descriptor, Resize the surface to the source dimensions (line 179),
BeginDraw to obtain the atlas texture and offset (line 185), register a
scope-exit that calls EndDraw (lines 187-190), run CopySubresourceRegion for
subresource 0 with a null source box (lines 192-200).  When the copy fails,
the scope-exit still runs EndDraw before the error propagates.  When
BeginDraw fails, the scope-exit was never armed, so no EndDraw happens. -/
def CopyTexutreIntoCompositionSurface (surface : SurfaceState)
    (sourceTexture : Texture2D) (faults : CopyFaults) : CopyResult :=
  let desc := sourceTexture.desc
  if faults.resizeFails then
    { error := some LoadError.resizeFailed
      surface := surface
      actions := [] }
  else
    let s1 := { surface with sizeWidth := desc.Width, sizeHeight := desc.Height }
    if faults.beginDrawFails then
      { error := some LoadError.beginDrawFailed
        surface := s1
        actions := [SurfaceAction.resize desc.Width desc.Height] }
    else
      let ox := s1.offsetX
      let oy := s1.offsetY
      let s2 := { s1 with drawing := true }
      if faults.copyFails then
        { error := some LoadError.copyFailed
          surface := { s2 with drawing := false }
          actions := [SurfaceAction.resize desc.Width desc.Height,
                      SurfaceAction.beginDraw ox oy,
                      SurfaceAction.endDraw] }
      else
        { error := none
          surface := { s2 with
            atlas := CopySubresourceRegion s2.atlas ox oy sourceTexture
            drawing := false }
          actions := [SurfaceAction.resize desc.Width desc.Height,
                      SurfaceAction.beginDraw ox oy,
                      SurfaceAction.copySubresource,
                      SurfaceAction.endDraw] }

/-- Number of EndDraw calls in an action trace. -/
def countEndDraw : List SurfaceAction → Nat
  | [] => 0
  | SurfaceAction.endDraw :: rest => countEndDraw rest + 1
  | _ :: rest => countEndDraw rest

/-- Result of LoadImageIntoSurface: the error (if any), the surface state
afterwards, the texture created by the upload (if it succeeded), and the
surface action trace. -/
structure LoadResult where
  error : Option LoadError
  surface : SurfaceState
  texture : Option Texture2D
  actions : List SurfaceAction

/-- LoadImageIntoSurface, main.cpp lines 203-214: create a texture from the
decoded image on the given device, then copy it into the surface. -/
def LoadImageIntoSurface (surface : SurfaceState) (d3dDevice : D3DDevice)
    (frame : BitmapFrame) (faults : CopyFaults) : LoadResult :=
  match CreateTextureFromImage d3dDevice frame with
  | Except.error e =>
    { error := some e, surface := surface, texture := none, actions := [] }
  | Except.ok imageTexture =>
    let r := CopyTexutreIntoCompositionSurface surface imageTexture faults
    { error := r.error
      surface := r.surface
      texture := some imageTexture
      actions := r.actions }

/-- The compositor device binding (the rendering device of the
CompositionGraphicsDevice). -/
structure CompositionGraphicsState where
  renderingDevice : D3DDevice
  deriving DecidableEq, Repr

/-- The RenderingDeviceReplaced handler registered in WinMain, main.cpp
lines 103-110: fetch the newly bound rendering device from the
CompositionGraphicsDevice and rerun LoadImageIntoSurface on the captured
surface with it. -/
def renderingDeviceReplacedCallback (surface : SurfaceState)
    (compGraphics : CompositionGraphicsState) (frame : BitmapFrame)
    (faults : CopyFaults) : LoadResult :=
  let d3dDevice := compGraphics.renderingDevice
  LoadImageIntoSurface surface d3dDevice frame faults

/-- DXGI_ERROR_DEVICE_REMOVED (0x887A0005). -/
def DXGI_ERROR_DEVICE_REMOVED : Nat := 0x887A0005

/-- DXGI_ERROR_DEVICE_RESET (0x887A0007). -/
def DXGI_ERROR_DEVICE_RESET : Nat := 0x887A0007

/-- What the catch block of the rebuild loop does with an error code,
main.cpp lines 250-261: device-removed and device-reset fall through to the
retry, anything else is rethrown. -/
inductive CatchAction
  | retry
  | rethrow (code : Nat)
  deriving DecidableEq, Repr

/-- The catch block of RegisterForDeviceLost, main.cpp lines 250-261. -/
def handleRebuildError (code : Nat) : CatchAction :=
  if code = DXGI_ERROR_DEVICE_REMOVED ∨ code = DXGI_ERROR_DEVICE_RESET then
    CatchAction.retry
  else
    CatchAction.rethrow code

/-- Outcome of one iteration of the rebuild loop, supplied by the
environment: util::CreateD3DDevice throws, or SetRenderingDevice throws
after the new device was created and the new recovery loop registered, or
everything succeeds yielding the new device. -/
inductive RebuildAttempt
  | createFails (code : Nat)
  | setDeviceFails (deviceId : Nat) (code : Nat)
  | ok (deviceId : Nat)
  deriving DecidableEq, Repr

/-- Observable events of the rebuild loop, in order: a new device is
created, RegisterForDeviceLost is called for it (arming the new recovery
loop synchronously up to its first suspension point), the device is
substituted into the compositor binding via SetRenderingDevice, which fires
the RenderingDeviceReplaced notification; a caught recoverable error is
followed by the fixed 500 ms backoff of main.cpp line 264. -/
inductive RecoveryEvent
  | createDevice (deviceId : Nat)
  | registerNewLoop (deviceId : Nat)
  | setRenderingDevice (deviceId : Nat)
  | renderingDeviceReplaced (deviceId : Nat)
  | caughtError (code : Nat)
  | backoffDelay (ms : Nat)
  deriving DecidableEq, Repr

/-- How the rebuild loop ends: the new loop is armed and the device replaced
(break at line 248), a non-recoverable error is rethrown (line 260), or the
supplied attempt list ran out while the loop would keep retrying. -/
inductive RebuildOutcome
  | rearmed (deviceId : Nat)
  | fatal (code : Nat)
  | exhausted
  deriving DecidableEq, Repr

/-- The while-true rebuild loop of RegisterForDeviceLost, main.cpp lines
236-265, driven by a list of per-iteration environment outcomes.  On
success: create the device, register the new recovery loop, set the
rendering device (firing RenderingDeviceReplaced), break.  On a caught
recoverable error: wait the fixed 500 ms backoff (line 264, reached only
because the successful iteration breaks before it) and loop.  On a
non-recoverable error: rethrow.  A SetRenderingDevice failure happens after
the new device was created and its recovery loop registered. -/
def rebuildLoop : List RebuildAttempt → List RecoveryEvent × RebuildOutcome
  | [] => ([], RebuildOutcome.exhausted)
  | RebuildAttempt.ok d :: _ =>
    ([RecoveryEvent.createDevice d, RecoveryEvent.registerNewLoop d,
      RecoveryEvent.setRenderingDevice d,
      RecoveryEvent.renderingDeviceReplaced d],
     RebuildOutcome.rearmed d)
  | RebuildAttempt.createFails c :: rest =>
    match handleRebuildError c with
    | CatchAction.retry =>
      let r := rebuildLoop rest
      (RecoveryEvent.caughtError c :: RecoveryEvent.backoffDelay 500 :: r.1,
       r.2)
    | CatchAction.rethrow c2 =>
      ([RecoveryEvent.caughtError c], RebuildOutcome.fatal c2)
  | RebuildAttempt.setDeviceFails d c :: rest =>
    match handleRebuildError c with
    | CatchAction.retry =>
      let r := rebuildLoop rest
      (RecoveryEvent.createDevice d :: RecoveryEvent.registerNewLoop d ::
        RecoveryEvent.caughtError c :: RecoveryEvent.backoffDelay 500 :: r.1,
       r.2)
    | CatchAction.rethrow c2 =>
      ([RecoveryEvent.createDevice d, RecoveryEvent.registerNewLoop d,
        RecoveryEvent.caughtError c],
       RebuildOutcome.fatal c2)

/-- Bookkeeping for device-removal waiters: which device ids have ever been
created, and which currently have a pending RegisterDeviceRemovedEvent
registration. -/
structure WaiterState where
  created : List Nat
  waiters : List Nat
  deriving DecidableEq, Repr

/-- No device created, no waiter pending. -/
def initialWaiterState : WaiterState :=
  { created := [], waiters := [] }

/-- Steps of the waiter bookkeeping.  `spawn d`: a RegisterForDeviceLost
call for a freshly created device registers exactly one waiter on it
(main.cpp lines 225-227; every call site passes a device just returned by
util::CreateD3DDevice, hence the freshness hypothesis).  `signalFired d`:
the waiter for d resumes and unregisters itself (lines 232-234). -/
inductive WaiterStep : WaiterState → WaiterState → Prop
  | spawn (d : Nat) (s : WaiterState) (h : d ∉ s.created) :
      WaiterStep s { created := d :: s.created, waiters := d :: s.waiters }
  | signalFired (d : Nat) (s : WaiterState) (h : d ∈ s.waiters) :
      WaiterStep s { created := s.created, waiters := s.waiters.erase d }

/-- Invariant carried through the waiter bookkeeping: the pending waiters
list has no duplicates and only mentions created devices. -/
def WaiterInv (s : WaiterState) : Prop :=
  s.waiters.Nodup ∧ s.waiters ⊆ s.created

/-- Demo atlas content: a constant opaque black texel. -/
def demoAtlas : Nat → Nat → List Nat := fun _ _ => [0, 0, 0, 255]

/-- A concrete surface used by the witnesses. -/
def demoSurface : SurfaceState :=
  { sizeWidth := 1
    sizeHeight := 1
    pixelFormat := DirectXPixelFormat.B8G8R8A8UIntNormalized
    alphaMode := DirectXAlphaMode.Premultiplied
    atlas := demoAtlas
    offsetX := 3
    offsetY := 2
    drawing := false }

/-- A concrete 2 x 1 Bgra8 frame used by the witnesses. -/
def demoFrame : BitmapFrame :=
  { pixelWidth := 2
    pixelHeight := 1
    bitmapPixelFormat := BitmapPixelFormat.Bgra8
    pixelData := [10, 20, 30, 40, 50, 60, 70, 80] }

/-- A concrete 2 x 1 texture used by the witnesses. -/
def demoTexture : Texture2D :=
  { deviceId := 0
    desc :=
      { Width := 2
        Height := 1
        MipLevels := 1
        ArraySize := 1
        Format := DXGIFormat.B8G8R8A8_UNORM
        SampleDesc := { Count := 1 } }
    data := { pSysMem := [10, 20, 30, 40, 50, 60, 70, 80], SysMemPitch := 8 } }

/-- Helper: on the fault-free path, the copied surface holds the source
texel at the atlas offset the draw session handed out. -/
theorem copyResult_atlas (s : SurfaceState) (t : Texture2D) (x y : Nat)
    (hx : x < t.desc.Width) (hy : y < t.desc.Height) :
    (CopyTexutreIntoCompositionSurface s t noFaults).surface.atlas
      (s.offsetX + x) (s.offsetY + y) = texelBytes t x y := by
  show CopySubresourceRegion s.atlas s.offsetX s.offsetY t
      (s.offsetX + x) (s.offsetY + y) = texelBytes t x y
  unfold CopySubresourceRegion
  rw [if_pos (by omega)]
  rw [Nat.add_sub_cancel_left, Nat.add_sub_cancel_left]

/-- C1: for every frame with positive width and height in the Bgra8 format,
CreateTextureFromImageAsync produces a texture whose descriptor reports
exactly that width and height, one mip level, one array slice, sample count
1 and the BGRA8 format, initialized from the frame bytes with row pitch
width * 4. -/
theorem createTexture_desc (device : D3DDevice) (frame : BitmapFrame)
    (hw : 0 < frame.pixelWidth) (hh : 0 < frame.pixelHeight)
    (hfmt : frame.bitmapPixelFormat = BitmapPixelFormat.Bgra8) :
    ∃ t, CreateTextureFromImage device frame = Except.ok t ∧
      t.desc.Width = frame.pixelWidth ∧
      t.desc.Height = frame.pixelHeight ∧
      t.desc.MipLevels = 1 ∧
      t.desc.ArraySize = 1 ∧
      t.desc.SampleDesc.Count = 1 ∧
      t.desc.Format = DXGIFormat.B8G8R8A8_UNORM ∧
      t.data.pSysMem = frame.pixelData ∧
      t.data.SysMemPitch = frame.pixelWidth * 4 := by
  simp only [CreateTextureFromImage]
  rw [if_pos hfmt]
  exact ⟨_, rfl, rfl, rfl, rfl, rfl, rfl, rfl, rfl, rfl⟩

/-- C1 witness: the theorem applied to a concrete device and frame. -/
theorem createTexture_desc_witness :
    ∃ t, CreateTextureFromImage { id := 0 } demoFrame = Except.ok t ∧
      t.desc.Width = demoFrame.pixelWidth ∧
      t.desc.Height = demoFrame.pixelHeight ∧
      t.desc.MipLevels = 1 ∧
      t.desc.ArraySize = 1 ∧
      t.desc.SampleDesc.Count = 1 ∧
      t.desc.Format = DXGIFormat.B8G8R8A8_UNORM ∧
      t.data.pSysMem = demoFrame.pixelData ∧
      t.data.SysMemPitch = demoFrame.pixelWidth * 4 :=
  createTexture_desc { id := 0 } demoFrame (by decide) (by decide) (by decide)

/-- C2: a fault-free Surface Copy succeeds, resizes the surface to the
source texture dimensions before BeginDraw acquires draw access (visible in
the action trace), leaves the surface reporting exactly those dimensions,
and writes every source texel at the atlas offset the draw session
returned. -/
theorem copyTexture_success (surface : SurfaceState) (sourceTexture : Texture2D) :
    (CopyTexutreIntoCompositionSurface surface sourceTexture noFaults).error = none ∧
    (CopyTexutreIntoCompositionSurface surface sourceTexture noFaults).surface.sizeWidth =
      sourceTexture.desc.Width ∧
    (CopyTexutreIntoCompositionSurface surface sourceTexture noFaults).surface.sizeHeight =
      sourceTexture.desc.Height ∧
    (CopyTexutreIntoCompositionSurface surface sourceTexture noFaults).actions =
      [SurfaceAction.resize sourceTexture.desc.Width sourceTexture.desc.Height,
       SurfaceAction.beginDraw surface.offsetX surface.offsetY,
       SurfaceAction.copySubresource,
       SurfaceAction.endDraw] ∧
    (∀ x y, x < sourceTexture.desc.Width → y < sourceTexture.desc.Height →
      (CopyTexutreIntoCompositionSurface surface sourceTexture noFaults).surface.atlas
        (surface.offsetX + x) (surface.offsetY + y) = texelBytes sourceTexture x y) := by
  refine ⟨rfl, rfl, rfl, rfl, ?_⟩
  intro x y hx hy
  exact copyResult_atlas surface sourceTexture x y hx hy

/-- C2 witness: the theorem applied to a concrete surface and texture. -/
theorem copyTexture_success_witness :
    (CopyTexutreIntoCompositionSurface demoSurface demoTexture noFaults).error = none ∧
    (CopyTexutreIntoCompositionSurface demoSurface demoTexture noFaults).surface.sizeWidth =
      demoTexture.desc.Width ∧
    (CopyTexutreIntoCompositionSurface demoSurface demoTexture noFaults).surface.sizeHeight =
      demoTexture.desc.Height ∧
    (CopyTexutreIntoCompositionSurface demoSurface demoTexture noFaults).actions =
      [SurfaceAction.resize demoTexture.desc.Width demoTexture.desc.Height,
       SurfaceAction.beginDraw demoSurface.offsetX demoSurface.offsetY,
       SurfaceAction.copySubresource,
       SurfaceAction.endDraw] ∧
    (∀ x y, x < demoTexture.desc.Width → y < demoTexture.desc.Height →
      (CopyTexutreIntoCompositionSurface demoSurface demoTexture noFaults).surface.atlas
        (demoSurface.offsetX + x) (demoSurface.offsetY + y) = texelBytes demoTexture x y) :=
  copyTexture_success demoSurface demoTexture

/-- C3: once BeginDraw has succeeded, EndDraw runs exactly once in every
call to Surface Copy, whether the copy step fails or not. -/
theorem copyTexture_endDraw_once (surface : SurfaceState)
    (sourceTexture : Texture2D) (faults : CopyFaults)
    (hr : faults.resizeFails = false) (hb : faults.beginDrawFails = false) :
    countEndDraw (CopyTexutreIntoCompositionSurface surface sourceTexture faults).actions = 1 := by
  rcases faults with ⟨fr, fb, fc⟩
  cases hr
  cases hb
  cases fc <;> rfl

/-- C3 witness: the theorem applied to a run where the copy step fails. -/
theorem copyTexture_endDraw_once_witness :
    countEndDraw (CopyTexutreIntoCompositionSurface demoSurface demoTexture
      { resizeFails := false, beginDrawFails := false, copyFails := true }).actions = 1 :=
  copyTexture_endDraw_once demoSurface demoTexture
    { resizeFails := false, beginDrawFails := false, copyFails := true } rfl rfl

/-- C4: the rebuild catch block retries exactly for the device-removed and
device-reset codes; any other code is rethrown unchanged and the loop ends
fatally with no retry (no backoff, fatal outcome). -/
theorem rebuild_retry_iff (code : Nat) (rest : List RebuildAttempt) :
    (handleRebuildError code = CatchAction.retry ↔
      (code = DXGI_ERROR_DEVICE_REMOVED ∨ code = DXGI_ERROR_DEVICE_RESET)) ∧
    (¬(code = DXGI_ERROR_DEVICE_REMOVED ∨ code = DXGI_ERROR_DEVICE_RESET) →
      handleRebuildError code = CatchAction.rethrow code ∧
      rebuildLoop (RebuildAttempt.createFails code :: rest) =
        ([RecoveryEvent.caughtError code], RebuildOutcome.fatal code)) := by
  by_cases h : code = DXGI_ERROR_DEVICE_REMOVED ∨ code = DXGI_ERROR_DEVICE_RESET
  · refine ⟨⟨fun _ => h, fun _ => ?_⟩, fun hc => absurd h hc⟩
    simp [handleRebuildError, h]
  · refine ⟨⟨fun hr => ?_, fun hc => absurd hc h⟩, fun _ => ⟨?_, ?_⟩⟩
    · rw [handleRebuildError, if_neg h] at hr
      exact absurd hr (by simp)
    · rw [handleRebuildError, if_neg h]
    · show (match handleRebuildError code with
        | CatchAction.retry =>
          let r := rebuildLoop rest
          (RecoveryEvent.caughtError code :: RecoveryEvent.backoffDelay 500 :: r.1, r.2)
        | CatchAction.rethrow c2 =>
          ([RecoveryEvent.caughtError code], RebuildOutcome.fatal c2)) = _
      rw [handleRebuildError, if_neg h]

/-- C4 witness: the theorem applied to a concrete non-recoverable code. -/
theorem rebuild_retry_iff_witness :
    (handleRebuildError 5 = CatchAction.retry ↔
      (5 = DXGI_ERROR_DEVICE_REMOVED ∨ 5 = DXGI_ERROR_DEVICE_RESET)) ∧
    (¬(5 = DXGI_ERROR_DEVICE_REMOVED ∨ 5 = DXGI_ERROR_DEVICE_RESET) →
      handleRebuildError 5 = CatchAction.rethrow 5 ∧
      rebuildLoop [RebuildAttempt.createFails 5] =
        ([RecoveryEvent.caughtError 5], RebuildOutcome.fatal 5)) :=
  rebuild_retry_iff 5 []

/-- C8: a decoded frame in any pixel format other than Bgra8 makes the
upload fail on the format assertion; no texture is produced and no
conversion path runs. -/
theorem createTexture_unsupported_format (device : D3DDevice)
    (frame : BitmapFrame)
    (h : frame.bitmapPixelFormat ≠ BitmapPixelFormat.Bgra8) :
    CreateTextureFromImage device frame =
      Except.error LoadError.assertUnsupportedPixelFormat := by
  simp [CreateTextureFromImage, h]

/-- C8 witness: the theorem applied to a concrete Rgba8 frame. -/
theorem createTexture_unsupported_format_witness :
    CreateTextureFromImage { id := 0 }
      { pixelWidth := 2, pixelHeight := 1,
        bitmapPixelFormat := BitmapPixelFormat.Rgba8,
        pixelData := [10, 20, 30, 40, 50, 60, 70, 80] } =
      Except.error LoadError.assertUnsupportedPixelFormat :=
  createTexture_unsupported_format { id := 0 }
    { pixelWidth := 2, pixelHeight := 1,
      bitmapPixelFormat := BitmapPixelFormat.Rgba8,
      pixelData := [10, 20, 30, 40, 50, 60, 70, 80] } (by decide)

/-- C10: the surface WinMain creates before the first image load has size
1 x 1, the B8G8R8A8UIntNormalized pixel format and premultiplied alpha, for
every atlas placement, so a size query before the first Surface Copy
returns 1 x 1. -/
theorem winMain_initial_surface (atlas0 : Nat → Nat → List Nat) (ox oy : Nat) :
    (winMainInitialSurface atlas0 ox oy).sizeWidth = 1 ∧
    (winMainInitialSurface atlas0 ox oy).sizeHeight = 1 ∧
    (winMainInitialSurface atlas0 ox oy).pixelFormat =
      DirectXPixelFormat.B8G8R8A8UIntNormalized ∧
    (winMainInitialSurface atlas0 ox oy).alphaMode =
      DirectXAlphaMode.Premultiplied :=
  ⟨rfl, rfl, rfl, rfl⟩

/-- C5: when the rebuild fails with a recoverable code exactly N times and
then succeeds, the loop runs exactly N retried iterations, each failed
attempt followed by exactly one fixed 500 ms backoff before the next
attempt, and ends Rearmed on the new device. -/
theorem rebuildLoop_retries (N : Nat) (code : Nat) (d : Nat)
    (hrec : handleRebuildError code = CatchAction.retry) :
    rebuildLoop (List.replicate N (RebuildAttempt.createFails code) ++
        [RebuildAttempt.ok d]) =
      ((List.replicate N [RecoveryEvent.caughtError code,
          RecoveryEvent.backoffDelay 500]).flatten ++
        [RecoveryEvent.createDevice d, RecoveryEvent.registerNewLoop d,
         RecoveryEvent.setRenderingDevice d,
         RecoveryEvent.renderingDeviceReplaced d],
       RebuildOutcome.rearmed d) := by
  induction N with
  | zero => rfl
  | succ n ih =>
    simp only [List.replicate_succ, List.cons_append, List.flatten_cons,
      rebuildLoop, hrec, List.append_eq, ih, List.append_assoc, List.nil_append]

/-- C5 witness: the theorem applied to two device-removed failures followed
by success. -/
theorem rebuildLoop_retries_witness :
    rebuildLoop (List.replicate 2 (RebuildAttempt.createFails DXGI_ERROR_DEVICE_REMOVED) ++
        [RebuildAttempt.ok 7]) =
      ((List.replicate 2 [RecoveryEvent.caughtError DXGI_ERROR_DEVICE_REMOVED,
          RecoveryEvent.backoffDelay 500]).flatten ++
        [RecoveryEvent.createDevice 7, RecoveryEvent.registerNewLoop 7,
         RecoveryEvent.setRenderingDevice 7,
         RecoveryEvent.renderingDeviceReplaced 7],
       RebuildOutcome.rearmed 7) :=
  rebuildLoop_retries 2 DXGI_ERROR_DEVICE_REMOVED 7 (by decide)

/-- C6: whenever the rebuild loop ends Rearmed on device d, its event trace
ends with: d is created, the new recovery loop is registered for d, then d
is substituted via SetRenderingDevice, immediately followed by the
synchronous RenderingDeviceReplaced notification — so the new loop is armed
strictly before the substitution, and the notification is adjacent to it. -/
theorem rebuild_success_ordering (attempts : List RebuildAttempt) (d : Nat)
    (h : (rebuildLoop attempts).2 = RebuildOutcome.rearmed d) :
    ∃ pre, (rebuildLoop attempts).1 =
      pre ++ [RecoveryEvent.createDevice d, RecoveryEvent.registerNewLoop d,
              RecoveryEvent.setRenderingDevice d,
              RecoveryEvent.renderingDeviceReplaced d] := by
  induction attempts with
  | nil => exact absurd h (by simp [rebuildLoop])
  | cons a rest ih =>
    cases a with
    | ok d2 =>
      have hd : d2 = d := by simpa [rebuildLoop] using h
      subst hd
      exact ⟨[], rfl⟩
    | createFails c =>
      cases hc : handleRebuildError c with
      | retry =>
        have h2 : (rebuildLoop rest).2 = RebuildOutcome.rearmed d := by
          simpa [rebuildLoop, hc] using h
        obtain ⟨pre, hpre⟩ := ih h2
        refine ⟨RecoveryEvent.caughtError c :: RecoveryEvent.backoffDelay 500 :: pre, ?_⟩
        simp [rebuildLoop, hc, hpre]
      | rethrow c2 =>
        exact absurd h (by simp [rebuildLoop, hc])
    | setDeviceFails d2 c =>
      cases hc : handleRebuildError c with
      | retry =>
        have h2 : (rebuildLoop rest).2 = RebuildOutcome.rearmed d := by
          simpa [rebuildLoop, hc] using h
        obtain ⟨pre, hpre⟩ := ih h2
        refine ⟨RecoveryEvent.createDevice d2 :: RecoveryEvent.registerNewLoop d2 ::
          RecoveryEvent.caughtError c :: RecoveryEvent.backoffDelay 500 :: pre, ?_⟩
        simp [rebuildLoop, hc, hpre]
      | rethrow c2 =>
        exact absurd h (by simp [rebuildLoop, hc])

/-- C6 witness: the theorem applied to a loop that succeeds on its first
iteration. -/
theorem rebuild_success_ordering_witness :
    ∃ pre, (rebuildLoop [RebuildAttempt.ok 5]).1 =
      pre ++ [RecoveryEvent.createDevice 5, RecoveryEvent.registerNewLoop 5,
              RecoveryEvent.setRenderingDevice 5,
              RecoveryEvent.renderingDeviceReplaced 5] :=
  rebuild_success_ordering [RebuildAttempt.ok 5] 5 rfl

/-- The texture CreateTextureFromImageAsync yields for a Bgra8 frame. -/
def uploadTexture (device : D3DDevice) (frame : BitmapFrame) : Texture2D :=
  { deviceId := device.id
    desc :=
      { Width := frame.pixelWidth
        Height := frame.pixelHeight
        MipLevels := 1
        ArraySize := 1
        Format := DXGIFormat.B8G8R8A8_UNORM
        SampleDesc := { Count := 1 } }
    data := { pSysMem := frame.pixelData, SysMemPitch := frame.pixelWidth * 4 } }

/-- The surface state after a fault-free Surface Copy of texture t. -/
def copySurfaceOk (s : SurfaceState) (t : Texture2D) : SurfaceState :=
  { s with
    sizeWidth := t.desc.Width
    sizeHeight := t.desc.Height
    atlas := CopySubresourceRegion s.atlas s.offsetX s.offsetY t
    drawing := false }

/-- The 4 bytes of the pixel at column x, row y of a decoded frame, read
row-major at 4 bytes per pixel. -/
def frameTexelBytes (frame : BitmapFrame) (x y : Nat) : List Nat :=
  (frame.pixelData.drop (y * (frame.pixelWidth * 4) + 4 * x)).take 4

/-- The initial image load of WinMain line 89: LoadImageIntoSurface on the
startup device, fault-free. -/
def initialLoad (s : SurfaceState) (dOld : D3DDevice) (frame : BitmapFrame) :
    LoadResult :=
  LoadImageIntoSurface s dOld frame noFaults

/-- The reload after device replacement: the RenderingDeviceReplaced
callback of WinMain lines 103-110 run on the surface left by the initial
load, with the new device bound to the CompositionGraphicsDevice. -/
def reloadAfterReplace (s : SurfaceState) (dOld dNew : D3DDevice)
    (frame : BitmapFrame) : LoadResult :=
  renderingDeviceReplacedCallback (initialLoad s dOld frame).surface
    { renderingDevice := dNew } frame noFaults

/-- Helper: on a Bgra8 frame the upload returns uploadTexture. -/
theorem createTexture_bgra (device : D3DDevice) (frame : BitmapFrame)
    (hfmt : frame.bitmapPixelFormat = BitmapPixelFormat.Bgra8) :
    CreateTextureFromImage device frame =
      Except.ok (uploadTexture device frame) := by
  simp only [CreateTextureFromImage]
  rw [if_pos hfmt]
  rfl

/-- Helper: a fault-free load of a Bgra8 frame succeeds, produces
uploadTexture, and leaves the surface in copySurfaceOk. -/
theorem loadImage_bgra (s : SurfaceState) (device : D3DDevice)
    (frame : BitmapFrame)
    (hfmt : frame.bitmapPixelFormat = BitmapPixelFormat.Bgra8) :
    LoadImageIntoSurface s device frame noFaults =
      { error := none
        surface := copySurfaceOk s (uploadTexture device frame)
        texture := some (uploadTexture device frame)
        actions := [SurfaceAction.resize frame.pixelWidth frame.pixelHeight,
                    SurfaceAction.beginDraw s.offsetX s.offsetY,
                    SurfaceAction.copySubresource,
                    SurfaceAction.endDraw] } := by
  unfold LoadImageIntoSurface
  rw [createTexture_bgra device frame hfmt]
  rfl

/-- C7: after the compositor device binding is replaced, the registered
callback reruns Texture Upload and Surface Copy with the newly bound device
(distinct from the old one) on the same Drawing Surface, and reproduces the
same dimensions and the same pixel content at the atlas offset. -/
theorem deviceReplaced_reload (s : SurfaceState) (dOld dNew : D3DDevice)
    (frame : BitmapFrame)
    (hfmt : frame.bitmapPixelFormat = BitmapPixelFormat.Bgra8)
    (hne : dNew.id ≠ dOld.id) :
    (∃ t1, (initialLoad s dOld frame).texture = some t1 ∧
      t1.deviceId = dOld.id) ∧
    (∃ t2, (reloadAfterReplace s dOld dNew frame).texture = some t2 ∧
      t2.deviceId = dNew.id ∧ t2.deviceId ≠ dOld.id) ∧
    (reloadAfterReplace s dOld dNew frame).error = none ∧
    (reloadAfterReplace s dOld dNew frame).surface.sizeWidth = frame.pixelWidth ∧
    (reloadAfterReplace s dOld dNew frame).surface.sizeHeight = frame.pixelHeight ∧
    (reloadAfterReplace s dOld dNew frame).surface.sizeWidth =
      (initialLoad s dOld frame).surface.sizeWidth ∧
    (reloadAfterReplace s dOld dNew frame).surface.sizeHeight =
      (initialLoad s dOld frame).surface.sizeHeight ∧
    (∀ x y, x < frame.pixelWidth → y < frame.pixelHeight →
      (initialLoad s dOld frame).surface.atlas (s.offsetX + x) (s.offsetY + y) =
        frameTexelBytes frame x y ∧
      (reloadAfterReplace s dOld dNew frame).surface.atlas
        (s.offsetX + x) (s.offsetY + y) = frameTexelBytes frame x y) := by
  have h1 := loadImage_bgra s dOld frame hfmt
  have h2 := loadImage_bgra (copySurfaceOk s (uploadTexture dOld frame)) dNew frame hfmt
  have hre : reloadAfterReplace s dOld dNew frame =
      LoadImageIntoSurface (copySurfaceOk s (uploadTexture dOld frame))
        dNew frame noFaults := by
    unfold reloadAfterReplace renderingDeviceReplacedCallback initialLoad
    rw [h1]
  refine ⟨⟨uploadTexture dOld frame, ?_, rfl⟩,
    ⟨uploadTexture dNew frame, ?_, rfl, hne⟩, ?_, ?_, ?_, ?_, ?_, ?_⟩
  · show (LoadImageIntoSurface s dOld frame noFaults).texture = _
    rw [h1]
  · rw [hre, h2]
  · rw [hre, h2]
  · rw [hre, h2]; rfl
  · rw [hre, h2]; rfl
  · show (reloadAfterReplace s dOld dNew frame).surface.sizeWidth =
      (LoadImageIntoSurface s dOld frame noFaults).surface.sizeWidth
    rw [hre, h2, h1]; rfl
  · show (reloadAfterReplace s dOld dNew frame).surface.sizeHeight =
      (LoadImageIntoSurface s dOld frame noFaults).surface.sizeHeight
    rw [hre, h2, h1]; rfl
  · intro x y hx hy
    constructor
    · show (LoadImageIntoSurface s dOld frame noFaults).surface.atlas
        (s.offsetX + x) (s.offsetY + y) = frameTexelBytes frame x y
      rw [h1]
      exact copyResult_atlas s (uploadTexture dOld frame) x y hx hy
    · rw [hre, h2]
      exact copyResult_atlas (copySurfaceOk s (uploadTexture dOld frame))
        (uploadTexture dNew frame) x y hx hy

/-- C7 witness: the theorem applied to a concrete surface, frame, and a
pair of distinct devices. -/
theorem deviceReplaced_reload_witness :
    (∃ t1, (initialLoad demoSurface { id := 0 } demoFrame).texture = some t1 ∧
      t1.deviceId = D3DDevice.id { id := 0 }) ∧
    (∃ t2, (reloadAfterReplace demoSurface { id := 0 } { id := 1 } demoFrame).texture = some t2 ∧
      t2.deviceId = D3DDevice.id { id := 1 } ∧
      t2.deviceId ≠ D3DDevice.id { id := 0 }) ∧
    (reloadAfterReplace demoSurface { id := 0 } { id := 1 } demoFrame).error = none ∧
    (reloadAfterReplace demoSurface { id := 0 } { id := 1 } demoFrame).surface.sizeWidth =
      demoFrame.pixelWidth ∧
    (reloadAfterReplace demoSurface { id := 0 } { id := 1 } demoFrame).surface.sizeHeight =
      demoFrame.pixelHeight ∧
    (reloadAfterReplace demoSurface { id := 0 } { id := 1 } demoFrame).surface.sizeWidth =
      (initialLoad demoSurface { id := 0 } demoFrame).surface.sizeWidth ∧
    (reloadAfterReplace demoSurface { id := 0 } { id := 1 } demoFrame).surface.sizeHeight =
      (initialLoad demoSurface { id := 0 } demoFrame).surface.sizeHeight ∧
    (∀ x y, x < demoFrame.pixelWidth → y < demoFrame.pixelHeight →
      (initialLoad demoSurface { id := 0 } demoFrame).surface.atlas
        (demoSurface.offsetX + x) (demoSurface.offsetY + y) =
        frameTexelBytes demoFrame x y ∧
      (reloadAfterReplace demoSurface { id := 0 } { id := 1 } demoFrame).surface.atlas
        (demoSurface.offsetX + x) (demoSurface.offsetY + y) =
        frameTexelBytes demoFrame x y) :=
  deviceReplaced_reload demoSurface { id := 0 } { id := 1 } demoFrame rfl (by decide)

/-- Helper: every waiter-bookkeeping step preserves the invariant that the
pending-waiter list is duplicate-free and only mentions created devices. -/
theorem waiterInv_step {s s2 : WaiterState} (h : WaiterStep s s2)
    (hs : WaiterInv s) : WaiterInv s2 := by
  cases h with
  | spawn d s hd =>
    exact ⟨List.nodup_cons.mpr ⟨fun hmem => hd (hs.2 hmem), hs.1⟩,
      List.cons_subset_cons d hs.2⟩
  | signalFired d s hd =>
    exact ⟨List.Nodup.sublist (List.erase_sublist d s.waiters) hs.1,
      fun a ha => hs.2 (List.erase_subset d s.waiters ha)⟩

/-- C9: in every state of the waiter bookkeeping reachable from startup,
including states reached through failed rebuild attempts, each device id
has at most one pending device-removal waiter. -/
theorem at_most_one_waiter_per_device (s : WaiterState)
    (h : Relation.ReflTransGen WaiterStep initialWaiterState s) (d : Nat) :
    s.waiters.count d ≤ 1 := by
  have hinv : WaiterInv s := by
    induction h with
    | refl => exact ⟨List.nodup_nil, fun a ha => absurd ha (by simp [initialWaiterState])⟩
    | tail hsteps hstep ih => exact waiterInv_step hstep ih
  exact List.nodup_iff_count_le_one.mp hinv.1 d

/-- C9 witness: the theorem applied to the state reached by registering the
waiter for the startup device. -/
theorem at_most_one_waiter_per_device_witness :
    (WaiterState.mk [7] [7]).waiters.count 7 ≤ 1 :=
  at_most_one_waiter_per_device (WaiterState.mk [7] [7])
    (Relation.ReflTransGen.single
      (WaiterStep.spawn 7 initialWaiterState (by simp [initialWaiterState]))) 7
